import Mathlib

/-!
Shallow embedding of the GuTechChatbot RAG query pipeline.

The repository contains two variants of the same Express endpoint logic:

* `src/index.js` (variant "A"): context segments carry the record content
  plus appended `Title:` / `Source URL:` / `Source File:` metadata lines,
  and the prompt branches on `context.trim() === ""`.
* `src/unnamed/part_001` (variant "B"): context segments are the record
  contents only, URLs are collected into a deduplicated citation list
  (`extractUrls`), and `createStructuredPrompt` substitutes a fallback
  instruction exactly when the context string is empty.

JavaScript truthiness on optional string fields (`undefined` and `""` are
falsy) is modelled by `otruthy`.  The three external services (embedding,
vector search, generation) are modelled as oracle functions returning
`Except String _`; the HTTP handlers are pure functions from the request
body and the oracles to a response, the list of external calls made, and
the server-side log lines.
-/

/-- Payload of a retrieved Qdrant record: all four fields are optional
strings, mirroring `item.payload?.content` etc. in the source. -/
structure Payload where
  content : Option String := none
  title : Option String := none
  url : Option String := none
  source_file : Option String := none

/-- A scored point returned by the vector store search
(`{ score, payload }`); the payload itself may be absent. -/
structure ScoredPoint where
  score : Float := 0.0
  payload : Option Payload := none

/-- JavaScript truthiness of an optional string: `undefined` (here `none`)
and the empty string are falsy, every other string is truthy. -/
def otruthy : Option String → Bool
  | none => false
  | some s => !(s == "")

/-- The content of a record as used by both variants:
`item.payload?.content || ""` collapses a missing payload or missing
content to the empty string. -/
def contentStr (pt : ScoredPoint) : String :=
  (pt.payload.bind Payload.content).getD ""

/-- The optional URL of a record (`item.payload?.url`). -/
def recordUrl (pt : ScoredPoint) : Option String :=
  pt.payload.bind Payload.url

/-- The separator both variants use in `.join("\n\n---\n\n")`. -/
def chunkSep : String := "\n\n---\n\n"

/-! ### Variant B (`src/unnamed/part_001`): context, citations, prompt -/

/-- The non-empty content segments, in record order:
`searchResult.map(item => item.payload?.content).filter(Boolean)`. -/
def segmentsB (rs : List ScoredPoint) : List String :=
  (rs.map contentStr).filter (fun s => !(s == ""))

/-- The assembled context of variant B: `... .join("\n\n---\n\n")`. -/
def contextB (rs : List ScoredPoint) : String :=
  String.intercalate chunkSep (segmentsB rs)

/-- One `urls.add(u)` step of a JavaScript `Set` built by insertion:
a URL already present is ignored, a new one is appended. -/
def addUrl (urls : List String) (u : String) : List String :=
  if u ∈ urls then urls else urls ++ [u]

/-- `extractUrls` from `part_001`: walk the records in order and add each
truthy `payload.url` to a `Set`, then return the set as an array
(insertion order, i.e. order of first appearance). -/
def extractUrls (rs : List ScoredPoint) : List String :=
  rs.foldl
    (fun urls pt =>
      match recordUrl pt with
      | some u => if u == "" then urls else addUrl urls u
      | none => urls)
    []

/-- The list of truthy URLs of the records, in record order, duplicates
included (what `extractUrls` iterates over). -/
def truthyUrls (rs : List ScoredPoint) : List String :=
  rs.filterMap
    (fun pt =>
      match recordUrl pt with
      | some u => if u == "" then none else some u
      | none => none)

/-- The fallback instruction `createStructuredPrompt` interpolates when the
context is falsy (`context || "No specific data found ..."`). -/
def fallbackTextB : String :=
  "No specific data found in the knowledge base. Please provide a general helpful response about GUTech based on your general knowledge."

/-- The interpolated context block: the context itself when it is a
non-empty string, the fallback instruction otherwise. -/
def contextOrFallback (context : String) : String :=
  if context == "" then fallbackTextB else context

/-- One rendered citation anchor: `<a href="${url}" target="_blank">${url}</a>`. -/
def urlAnchor (url : String) : String :=
  "<a href=\"" ++ url ++ "\" target=\"_blank\">" ++ url ++ "</a>"

/-- The `urlSection` of `createStructuredPrompt`: a rendered Source Links
block when `urls.length > 0`, the empty string otherwise. -/
def urlSection (urls : List String) : String :=
  if urls.length > 0 then
    "<p><strong>Source Links:</strong><br>" ++
      String.intercalate "<br>" (urls.map urlAnchor) ++ "</p>"
  else ""

/-- The fixed head of the variant-B prompt template. -/
def promptHeaderB : String :=
  "You are an expert assistant for GU TECH Karachi. Respond ONLY in HTML format.\nUse <h2> for titles, <ul>/<li> for lists, and <p> for paragraphs. No Markdown.\n\nContext Data:\n"

/-- `createStructuredPrompt(context, userQuery, urls)` from `part_001`. -/
def createStructuredPrompt (context userQuery : String) (urls : List String) : String :=
  promptHeaderB ++ contextOrFallback context ++ "\n\nUser Query: " ++ userQuery ++
    "\n\n" ++ urlSection urls

/-! ### Variant A (`src/index.js`): context rendering and prompt branches -/

/-- Variant A rendering of one record: start from
`item.payload?.content || ''` and append `Title:`, `Source URL:` and
`Source File:` lines for each truthy metadata field. -/
def renderChunk (pt : ScoredPoint) : String :=
  let c0 := (pt.payload.bind Payload.content).getD ""
  let c1 :=
    if otruthy (pt.payload.bind Payload.title) then
      c0 ++ "\nTitle: " ++ (pt.payload.bind Payload.title).getD ""
    else c0
  let c2 :=
    if otruthy (pt.payload.bind Payload.url) then
      c1 ++ "\nSource URL: " ++ (pt.payload.bind Payload.url).getD ""
    else c1
  if otruthy (pt.payload.bind Payload.source_file) then
    c2 ++ "\nSource File: " ++ (pt.payload.bind Payload.source_file).getD ""
  else c2

/-- The non-empty rendered segments of variant A, in record order
(`.map(...).filter(Boolean)`). -/
def segmentsA (rs : List ScoredPoint) : List String :=
  (rs.map renderChunk).filter (fun s => !(s == ""))

/-- The assembled context of variant A (`.join('\n\n---\n\n')`). -/
def contextA (rs : List ScoredPoint) : String :=
  String.intercalate chunkSep (segmentsA rs)

/-- The variant-A fallback prompt (no context found), text taken verbatim
from the template literal in `src/index.js`. -/
def fallbackPromptA (userQuery : String) : String :=
  "You are a helpful and professional university assistant. A user has asked a question, but no specific information from the university\x27s knowledge base was found to answer it directly.\n\n    Your task is to provide a helpful and polite response. Do NOT state that you lack information. Instead, assume a role as a knowledgeable assistant and offer general, useful advice or next steps.\n\n    Example Responses:\n    - \"For the most up-to-date information on campus locations, I would recommend visiting our official website or contacting our admissions office directly. They\x27ll be able to provide the most accurate details!\"\n    - \"To find out more about our campus facilities and location, the best place to start is our main website\x27s \x27About Us\x27 section. Our team is also available to help if you contact them by phone or email.\"\n\n    User Query: " ++ userQuery

/-- The variant-A grounded prompt (context found), text taken verbatim
from the template literal in `src/index.js`. -/
def groundedPromptA (context userQuery : String) : String :=
  "You are a helpful and informed assistant for GU TECH (Greenwich University Technology Campus).\n\n    Use only the **following relevant data** to answer the user\x27s question. If something is not directly mentioned, don\x27t deny the user or say unspecified or this info is not availabel currently — instead, provide a helpful, logical response based on related details, common practices in universities, or suggest practical next steps.\n\n    Keep answers concise, professional, and user-friendly. Add emojis only when it adds clarity or friendliness.\n\n    Relevant Data:\n    " ++ context ++ "\n\n    User Query: " ++ userQuery

/-- A whitespace character in the sense of JavaScript's
`String.prototype.trim` (restricted to the ASCII range the pipeline's
strings use). -/
def isJsWhitespace (c : Char) : Bool :=
  c == ' ' || c == '\t' || c == '\n' || c == '\r' || c == '\x0b' || c == '\x0c'

/-- JavaScript's `.trim()`: strip leading and trailing whitespace. -/
def jsTrim (s : String) : String :=
  String.mk (((s.data.dropWhile isJsWhitespace).reverse.dropWhile isJsWhitespace).reverse)

/-- The variant-A prompt choice: `if (context.trim() === "") ... else ...`. -/
def chatInputA (context userQuery : String) : String :=
  if jsTrim context == "" then fallbackPromptA userQuery
  else groundedPromptA context userQuery

/-! ### The embedding service response and `getEmbedding` -/

/-- The `embedding.values` level of the service response: the numeric
array may be absent. -/
structure EmbeddingValues where
  values : Option (List Float) := none

/-- The top level of the service response: the `embedding` object may be
absent. -/
structure EmbeddingWrapper where
  embedding : Option EmbeddingValues := none

/-- A raw `embedContent` result; `none` models a falsy (null/undefined)
response object. -/
abbrev EmbedResp := Option EmbeddingWrapper

/-- The optional chain `resp?.embedding?.values`. -/
def chainValues (resp : EmbedResp) : Option (List Float) :=
  (resp.bind EmbeddingWrapper.embedding).bind EmbeddingValues.values

/-- The message `part_001`'s `getEmbedding` throws on a malformed
response. -/
def invalidEmbeddingMsgB : String := "Invalid embedding response."

/-- `getEmbedding` from `part_001`, as a function of the raw service
outcome: a service failure is rethrown unchanged by the `catch`; a falsy
`result?.embedding?.values` raises the invalid-response error; otherwise
the values array is returned — note `!values` is `false` for any array,
so an empty array passes the check. -/
def getEmbeddingB (svc : Except String EmbedResp) : Except String (List Float) :=
  match svc with
  | .error e => .error e
  | .ok resp =>
    match resp with
    | none => .error invalidEmbeddingMsgB
    | some w =>
      match w.embedding with
      | none => .error invalidEmbeddingMsgB
      | some ev =>
        match ev.values with
        | none => .error invalidEmbeddingMsgB
        | some vs => .ok vs

/-- The wrapping prefix of `src/index.js`'s `getEmbedding` catch block
(`Failed to generate embedding: ${error.message}`). -/
def embedFailPrefixA : String := "Failed to generate embedding: "

/-- The message `src/index.js`'s `getEmbedding` throws on a malformed
response (before the catch block wraps it). -/
def invalidEmbeddingMsgA : String := "Invalid embedding response from Gemini API."

/-- `getEmbedding` from `src/index.js`: both a service failure and the
invalid-response error are wrapped by the catch block; as in variant B an
empty `values` array passes the truthiness check and is returned. -/
def getEmbeddingA (svc : Except String EmbedResp) : Except String (List Float) :=
  match svc with
  | .error e => .error (embedFailPrefixA ++ e)
  | .ok resp =>
    match resp with
    | none => .error (embedFailPrefixA ++ invalidEmbeddingMsgA)
    | some w =>
      match w.embedding with
      | none => .error (embedFailPrefixA ++ invalidEmbeddingMsgA)
      | some ev =>
        match ev.values with
        | none => .error (embedFailPrefixA ++ invalidEmbeddingMsgA)
        | some vs => .ok vs

/-! ### The `/query` handlers

Each handler is a pure function of the request body (`userQuery`, absent
or present) and the three service oracles; it returns the JSON response,
the list of external calls actually made, and the server-side log lines
written on the error paths (plus `part_001`'s `Matched N data chunks.`
line on its success path; the purely informational `console.log` dumps of
the search result are not modelled). -/

/-- The three external services a query may call. -/
inductive ExtCall where
  | embed
  | search
  | generate
deriving Repr, DecidableEq

/-- The JSON body of a `/query` response together with its HTTP status;
fields absent from a given `res.json({...})` call are `none`. -/
structure QueryResponse where
  status : Nat
  error : Option String := none
  answer : Option String := none
  responseTime : Option String := none
  relevantUrls : Option (List String) := none
  chunksFound : Option Nat := none
deriving Repr, DecidableEq

/-- The fixed 500 body of `part_001`'s catch block. -/
def serverErrorMsgB : String := "Server error occurred. Check backend console."

/-- The `/query` handler of `src/unnamed/part_001`: validate, embed,
search, build the structured prompt, generate, and answer with
`{ answer, responseTime, relevantUrls, chunksFound }`; any stage failure
is caught and mapped to a fixed 500 body while the cause is logged. -/
def handleQueryB (userQuery : Option String)
    (embedSvc : String → Except String EmbedResp)
    (searchSvc : List Float → Except String (List ScoredPoint))
    (genSvc : String → Except String String)
    (elapsedMs : Nat) : QueryResponse × List ExtCall × List String :=
  if otruthy userQuery then
    let uq := userQuery.getD ""
    match getEmbeddingB (embedSvc uq) with
    | .error e =>
      ({ status := 500, error := some serverErrorMsgB }, [.embed],
       ["Embedding Error: " ++ e, "Backend Error Log: " ++ e])
    | .ok vec =>
      match searchSvc vec with
      | .error e =>
        ({ status := 500, error := some serverErrorMsgB }, [.embed, .search],
         ["Backend Error Log: " ++ e])
      | .ok rs =>
        let relevantUrls := extractUrls rs
        let context := contextB rs
        let prompt := createStructuredPrompt context uq relevantUrls
        match genSvc prompt with
        | .error e =>
          ({ status := 500, error := some serverErrorMsgB },
           [.embed, .search, .generate],
           ["Matched " ++ toString rs.length ++ " data chunks.",
            "Backend Error Log: " ++ e])
        | .ok answer =>
          ({ status := 200, answer := some answer,
             responseTime := some (toString elapsedMs ++ "ms"),
             relevantUrls := some relevantUrls,
             chunksFound := some rs.length },
           [.embed, .search, .generate],
           ["Matched " ++ toString rs.length ++ " data chunks."])
  else
    ({ status := 400, error := some "Query required" }, [], [])

/-- The fixed 500 body of `src/index.js`'s catch block. -/
def serverErrorMsgA : String :=
  "Failed to fetch answer from AI model or Qdrant. Please check backend logs."

/-- The `/query` handler of `src/index.js`: validate, embed, search,
assemble the metadata-bearing context, pick the trim-branched prompt,
generate, and answer with `{ answer }`; any stage failure is caught and
mapped to a fixed 500 body while the cause is logged. -/
def handleQueryA (userQuery : Option String)
    (embedSvc : String → Except String EmbedResp)
    (searchSvc : List Float → Except String (List ScoredPoint))
    (genSvc : String → Except String String) :
    QueryResponse × List ExtCall × List String :=
  if otruthy userQuery then
    let uq := userQuery.getD ""
    match getEmbeddingA (embedSvc uq) with
    | .error e =>
      ({ status := 500, error := some serverErrorMsgA }, [.embed],
       ["Error in /query endpoint: " ++ e])
    | .ok vec =>
      match searchSvc vec with
      | .error e =>
        ({ status := 500, error := some serverErrorMsgA }, [.embed, .search],
         ["Error in /query endpoint: " ++ e])
      | .ok rs =>
        let context := contextA rs
        let prompt := chatInputA context uq
        match genSvc prompt with
        | .error e =>
          ({ status := 500, error := some serverErrorMsgA },
           [.embed, .search, .generate],
           ["Error in /query endpoint: " ++ e])
        | .ok answer =>
          ({ status := 200, answer := some answer },
           [.embed, .search, .generate], [])
  else
    ({ status := 400, error := some "User query is required." }, [], [])

/-! ### C1: validation of the user query -/

/-- C1 (counterexample): a whitespace-only `userQuery` such as `" "` is a
truthy JavaScript string, so `if (!userQuery)` does not reject it: with
succeeding oracles both handlers return status 200 and make all three
external calls, instead of the claimed 400-class failure with zero
external calls. -/
theorem c1_counterexample :
    (handleQueryB (some " ") (fun _ => .ok (some ⟨some ⟨some []⟩⟩))
        (fun _ => .ok []) (fun _ => .ok "generic answer") 0).1.status = 200 ∧
    (handleQueryB (some " ") (fun _ => .ok (some ⟨some ⟨some []⟩⟩))
        (fun _ => .ok []) (fun _ => .ok "generic answer") 0).2.1 =
      [ExtCall.embed, ExtCall.search, ExtCall.generate] ∧
    (handleQueryA (some " ") (fun _ => .ok (some ⟨some ⟨some []⟩⟩))
        (fun _ => .ok []) (fun _ => .ok "generic answer")).1.status = 200 ∧
    (handleQueryA (some " ") (fun _ => .ok (some ⟨some ⟨some []⟩⟩))
        (fun _ => .ok []) (fun _ => .ok "generic answer")).2.1 =
      [ExtCall.embed, ExtCall.search, ExtCall.generate] :=
  ⟨rfl, rfl, rfl, rfl⟩

/-- C1 (amended): a missing or empty-string `userQuery` is falsy, so both
handlers return their 400 response with zero external calls and no log
lines; a whitespace-only query, however, passes validation (see the
counterexample). -/
theorem c1_empty_query_rejected :
    ∀ (embedSvc : String → Except String EmbedResp)
      (searchSvc : List Float → Except String (List ScoredPoint))
      (genSvc : String → Except String String) (t : Nat),
      handleQueryB none embedSvc searchSvc genSvc t =
        ({ status := 400, error := some "Query required" }, [], []) ∧
      handleQueryB (some "") embedSvc searchSvc genSvc t =
        ({ status := 400, error := some "Query required" }, [], []) ∧
      handleQueryA none embedSvc searchSvc genSvc =
        ({ status := 400, error := some "User query is required." }, [], []) ∧
      handleQueryA (some "") embedSvc searchSvc genSvc =
        ({ status := 400, error := some "User query is required." }, [], []) := by
  intro embedSvc searchSvc genSvc t
  exact ⟨rfl, rfl, rfl, rfl⟩

/-! ### C6: failure behaviour of `getEmbedding` -/

/-- C6 (counterexample): an empty numeric array is a truthy JavaScript
value, so `!result?.embedding?.values` does not catch it: both variants
of `getEmbedding` return the empty vector instead of failing. -/
theorem c6_counterexample :
    getEmbeddingB (.ok (some ⟨some ⟨some []⟩⟩)) = .ok [] ∧
    getEmbeddingA (.ok (some ⟨some ⟨some []⟩⟩)) = .ok [] :=
  ⟨rfl, rfl⟩

/-- C6 (amended): `getEmbedding` fails on a response exactly when the
optional chain `resp?.embedding?.values` is missing (response falsy,
`embedding` field absent, or `values` field absent); any present array —
including the empty one — is returned as the vector. Variant B raises
its invalid-response message, variant A the same wrapped by its catch
block. -/
theorem c6_embedding_failure_iff :
    ∀ resp : EmbedResp,
      (∀ vs, getEmbeddingB (.ok resp) = .ok vs ↔ chainValues resp = some vs) ∧
      (getEmbeddingB (.ok resp) = .error invalidEmbeddingMsgB ↔
        chainValues resp = none) ∧
      (∀ vs, getEmbeddingA (.ok resp) = .ok vs ↔ chainValues resp = some vs) ∧
      (getEmbeddingA (.ok resp) = .error (embedFailPrefixA ++ invalidEmbeddingMsgA) ↔
        chainValues resp = none) := by
  intro resp
  match resp with
  | none => simp [getEmbeddingA, getEmbeddingB, chainValues]
  | some w =>
    match h : w.embedding with
    | none => simp [getEmbeddingA, getEmbeddingB, chainValues, h]
    | some ev =>
      match hv : ev.values with
      | none => simp [getEmbeddingA, getEmbeddingB, chainValues, h, hv]
      | some vs => simp [getEmbeddingA, getEmbeddingB, chainValues, h, hv]

/-! ### C4: the citation set is deduplicated in first-appearance order -/

/-- Deduplication keeping the first occurrence of every element: the
spec-side reading of a "deduplicated, order-of-first-appearance set".
(This is the one definition written from the claim's words, to be
compared with `extractUrls` from the source.) -/
def firstOccurrenceDedup : List String → List String
  | [] => []
  | u :: us => u :: firstOccurrenceDedup (us.filter (fun v => !(v == u)))
termination_by l => l.length
decreasing_by
  simp only [List.length_cons]
  exact Nat.lt_succ_of_le (List.length_filter_le _ _)

theorem firstOccurrenceDedup_nil : firstOccurrenceDedup [] = [] := by
  rw [firstOccurrenceDedup]

theorem firstOccurrenceDedup_cons (u : String) (us : List String) :
    firstOccurrenceDedup (u :: us) =
      u :: firstOccurrenceDedup (us.filter (fun v => !(v == u))) := by
  rw [firstOccurrenceDedup]

theorem mem_firstOccurrenceDedup : ∀ (n : Nat) (l : List String), l.length ≤ n →
    ∀ x, x ∈ firstOccurrenceDedup l → x ∈ l := by
  intro n
  induction n with
  | zero =>
    intro l hl x hx
    have : l = [] := List.eq_nil_of_length_eq_zero (Nat.le_zero.mp hl)
    subst this
    simp [firstOccurrenceDedup_nil] at hx
  | succ n ih =>
    intro l hl x hx
    match l with
    | [] => simp [firstOccurrenceDedup_nil] at hx
    | a :: us =>
      rw [firstOccurrenceDedup_cons] at hx
      rcases List.mem_cons.mp hx with h | h
      · exact h ▸ List.mem_cons_self _ _
      · have hlen : (us.filter (fun v => !(v == a))).length ≤ n :=
          le_trans (List.length_filter_le _ _)
            (Nat.le_of_succ_le_succ (by simpa using hl))
        exact List.mem_cons_of_mem _ (List.mem_of_mem_filter (ih _ hlen x h))

theorem nodup_firstOccurrenceDedup : ∀ (n : Nat) (l : List String), l.length ≤ n →
    (firstOccurrenceDedup l).Nodup := by
  intro n
  induction n with
  | zero =>
    intro l hl
    have : l = [] := List.eq_nil_of_length_eq_zero (Nat.le_zero.mp hl)
    subst this
    simp [firstOccurrenceDedup_nil]
  | succ n ih =>
    intro l hl
    match l with
    | [] => simp [firstOccurrenceDedup_nil]
    | a :: us =>
      rw [firstOccurrenceDedup_cons]
      have hlen : (us.filter (fun v => !(v == a))).length ≤ n :=
        le_trans (List.length_filter_le _ _)
          (Nat.le_of_succ_le_succ (by simpa using hl))
      refine List.nodup_cons.mpr ⟨fun hmem => ?_, ih _ hlen⟩
      have hx := mem_firstOccurrenceDedup n _ hlen a hmem
      have := List.of_mem_filter hx
      simp at this

theorem foldl_addUrl_eq (l : List String) : ∀ acc : List String,
    List.foldl addUrl acc l =
      acc ++ firstOccurrenceDedup (l.filter (fun u => !(decide (u ∈ acc)))) := by
  induction l with
  | nil => intro acc; simp [firstOccurrenceDedup_nil]
  | cons a l ih =>
    intro acc
    by_cases ha : a ∈ acc
    · have h1 : addUrl acc a = acc := by simp [addUrl, ha]
      rw [List.foldl_cons, h1, ih acc, List.filter_cons]
      simp [ha]
    · have h1 : addUrl acc a = acc ++ [a] := by simp [addUrl, ha]
      rw [List.foldl_cons, h1, ih (acc ++ [a]), List.filter_cons]
      have hcond : (!(decide (a ∈ acc))) = true := by simp [ha]
      rw [if_pos hcond, firstOccurrenceDedup_cons, List.append_assoc]
      have hpt : ∀ u ∈ l, (!decide (u ∈ acc ++ [a])) =
          ((!(u == a)) && !decide (u ∈ acc)) := by
        intro u _
        by_cases h1 : u ∈ acc
        · simp [h1, List.mem_append]
        · by_cases h2 : u = a
          · simp [h1, h2, List.mem_append]
          · simp [h1, h2, List.mem_append]
      rw [List.filter_congr hpt, ← List.filter_filter]
      rfl

theorem extractUrls_eq_foldl (rs : List ScoredPoint) :
    extractUrls rs = List.foldl addUrl [] (truthyUrls rs) := by
  suffices h : ∀ acc,
      rs.foldl
        (fun urls pt =>
          match recordUrl pt with
          | some u => if u == "" then urls else addUrl urls u
          | none => urls)
        acc = (truthyUrls rs).foldl addUrl acc from h []
  induction rs with
  | nil => intro acc; simp [truthyUrls]
  | cons pt rs ih =>
    intro acc
    rw [List.foldl_cons]
    match h : recordUrl pt with
    | none =>
      simp only [truthyUrls, List.filterMap_cons, h]
      exact ih acc
    | some u =>
      cases hu : u == "" with
      | true =>
        simp only [truthyUrls, List.filterMap_cons, h, hu, if_true]
        exact ih acc
      | false =>
        simp only [truthyUrls, List.filterMap_cons, h, hu, if_false, Bool.false_eq_true,
          List.foldl_cons]
        exact ih (addUrl acc u)

/-- C4: the extracted citation set has no duplicate URLs, and it is
exactly the record-order list of truthy URLs deduplicated keeping first
occurrences — i.e. URLs appear in order of first appearance. -/
theorem c4_citations : ∀ rs : List ScoredPoint,
    (extractUrls rs).Nodup ∧
      extractUrls rs = firstOccurrenceDedup (truthyUrls rs) := by
  intro rs
  have h0 : extractUrls rs = firstOccurrenceDedup (truthyUrls rs) := by
    rw [extractUrls_eq_foldl, foldl_addUrl_eq]
    simp
  exact ⟨h0 ▸ nodup_firstOccurrenceDedup (truthyUrls rs).length _ le_rfl, h0⟩

/-! ### C2: prompt-branch selection -/

set_option maxRecDepth 16384

/-- A record with empty content but a truthy title (C2). -/
def rTitleOnly : ScoredPoint := ⟨0.87, some ⟨some "", some "Admissions", none, none⟩⟩

/-- A record whose content is a single space (C2). -/
def rWsContent : ScoredPoint := ⟨0.42, some ⟨some " ", none, none, none⟩⟩

theorem segmentsA_eq_nil (rs : List ScoredPoint) (h : ∀ pt ∈ rs, renderChunk pt = "") :
    segmentsA rs = [] := by
  simp only [segmentsA, List.filter_eq_nil_iff]
  intro s hs
  obtain ⟨pt, hpt, rfl⟩ := List.mem_map.mp hs
  simp [h pt hpt]

theorem segmentsB_eq_nil (rs : List ScoredPoint) (h : ∀ pt ∈ rs, contentStr pt = "") :
    segmentsB rs = [] := by
  simp only [segmentsB, List.filter_eq_nil_iff]
  intro s hs
  obtain ⟨pt, hpt, rfl⟩ := List.mem_map.mp hs
  simp [h pt hpt]

/-- C2 (counterexample): a record with empty content but a truthy title
refutes the claim on `src/index.js` — the assembled context is
`"\nTitle: Admissions"`, which is not empty after trimming, so the
grounded branch (not the fallback) is selected even though every record
has empty content.  Moreover the branch predicate is not "empty after
trimming" in `part_001`: a record whose content is `" "` yields a
context that trims to empty, yet `createStructuredPrompt` interpolates
it as-is instead of the fallback instruction. -/
theorem c2_counterexample :
    contentStr rTitleOnly = "" ∧
    (jsTrim (contextA [rTitleOnly]) == "") = false ∧
    chatInputA (contextA [rTitleOnly]) "When are admissions open?" =
      groundedPromptA (contextA [rTitleOnly]) "When are admissions open?" ∧
    (chatInputA (contextA [rTitleOnly]) "When are admissions open?" ==
      fallbackPromptA "When are admissions open?") = false ∧
    (jsTrim (contextB [rWsContent]) == "") = true ∧
    contextOrFallback (contextB [rWsContent]) = " " ∧
    (contextOrFallback (contextB [rWsContent]) == fallbackTextB) = false :=
  ⟨rfl, by decide, rfl, by decide, by decide, by decide, by decide⟩

/-- C2 (amended): each variant has exactly two prompt branches, but the
selection predicates differ.  In `src/index.js` the branch is selected
solely by whether the context is empty after trimming (both directions
stated: trim-empty contexts get the fallback prompt, all others the
grounded prompt); in `part_001` the fallback text is substituted exactly
when the context is the empty string, with no trimming (again both
directions).  At the record level: when every record's content is empty
or missing — in particular for zero records — `part_001` selects the
fallback; `src/index.js` selects the fallback whenever every record
renders to the empty string (while a record with empty content but
truthy metadata yields a non-empty context and the grounded branch, see
the counterexample). -/
theorem c2_branching :
    (∀ (context userQuery : String), (jsTrim context == "") = true →
      chatInputA context userQuery = fallbackPromptA userQuery) ∧
    (∀ (context userQuery : String), (jsTrim context == "") = false →
      chatInputA context userQuery = groundedPromptA context userQuery) ∧
    (∀ (context userQuery : String) (urls : List String), (context == "") = true →
      createStructuredPrompt context userQuery urls =
        promptHeaderB ++ fallbackTextB ++ "\n\nUser Query: " ++ userQuery ++
          "\n\n" ++ urlSection urls) ∧
    (∀ (context userQuery : String) (urls : List String), (context == "") = false →
      createStructuredPrompt context userQuery urls =
        promptHeaderB ++ context ++ "\n\nUser Query: " ++ userQuery ++
          "\n\n" ++ urlSection urls) ∧
    (∀ rs userQuery, (∀ pt ∈ rs, renderChunk pt = "") →
      chatInputA (contextA rs) userQuery = fallbackPromptA userQuery) ∧
    (∀ rs, (∀ pt ∈ rs, contentStr pt = "") →
      contextOrFallback (contextB rs) = fallbackTextB) := by
  refine ⟨?_, ?_, ?_, ?_, ?_, ?_⟩
  · intro context q h
    simp [chatInputA, h]
  · intro context q h
    simp [chatInputA, h]
  · intro context q urls h
    simp [createStructuredPrompt, contextOrFallback, h]
  · intro context q urls h
    simp [createStructuredPrompt, contextOrFallback, h]
  · intro rs q h
    rw [contextA, segmentsA_eq_nil rs h]
    rfl
  · intro rs h
    rw [contextB, segmentsB_eq_nil rs h]
    rfl

/-- A record with no payload at all (C2 witness). -/
def rNoPayload : ScoredPoint := ⟨0.11, none⟩

theorem c2_branching_witness :
    chatInputA (contextA [rNoPayload]) "Where is the campus?" =
      fallbackPromptA "Where is the campus?" ∧
    contextOrFallback (contextB [rNoPayload]) = fallbackTextB ∧
    chatInputA (contextA [rTitleOnly]) "When are admissions open?" =
      groundedPromptA (contextA [rTitleOnly]) "When are admissions open?" ∧
    createStructuredPrompt (contextB [rNoPayload]) "Where is the campus?" [] =
      promptHeaderB ++ fallbackTextB ++ "\n\nUser Query: " ++
        "Where is the campus?" ++ "\n\n" ++ urlSection [] :=
  ⟨c2_branching.2.2.2.2.1 [rNoPayload] "Where is the campus?" (by decide),
   c2_branching.2.2.2.2.2 [rNoPayload] (by decide),
   c2_branching.2.1 (contextA [rTitleOnly]) "When are admissions open?" (by decide),
   c2_branching.2.2.1 (contextB [rNoPayload]) "Where is the campus?" [] (by decide)⟩

/-! ### C3: context assembly and content-less records -/

/-- A record with absent content but a truthy title (C3). -/
def rMetaOnly : ScoredPoint := ⟨0.5, some ⟨none, some "Campus Life", none, none⟩⟩

/-- C3 (counterexample): in `src/index.js` a content-less record with a
truthy title still contributes a segment — the metadata lines are
appended to the (empty) content, so the record is not skipped. -/
theorem c3_counterexample :
    contentStr rMetaOnly = "" ∧
    segmentsA [rMetaOnly] = ["\nTitle: Campus Life"] ∧
    contextA [rMetaOnly] = "\nTitle: Campus Life" :=
  ⟨rfl, by decide, by decide⟩

/-- C3 (amended): in `part_001` the context is assembled from record
contents alone, so content-less records are skipped entirely — filtering
the records to those with truthy content does not change the context;
and in both variants the assembled segment list contains no empty
segment.  In `src/index.js`, however, a content-less record with truthy
metadata still produces a (metadata-only) segment (see the
counterexample). -/
theorem c3_assembly :
    (∀ rs, contextB rs = contextB (rs.filter (fun pt => !(contentStr pt == "")))) ∧
    (∀ rs, (segmentsB rs).all (fun s => !(s == "")) = true) ∧
    (∀ rs, (segmentsA rs).all (fun s => !(s == "")) = true) := by
  refine ⟨?_, ?_, ?_⟩
  · intro rs
    simp only [contextB, segmentsB]
    congr 1
    rw [List.filter_map, List.filter_map]
    congr 1
    rw [List.filter_filter]
    apply List.filter_congr
    intro pt _
    simp [Function.comp]
  · intro rs
    rw [List.all_eq_true]
    intro s hs
    simp only [segmentsB] at hs
    have h2 := List.of_mem_filter hs
    simpa using h2
  · intro rs
    rw [List.all_eq_true]
    intro s hs
    simp only [segmentsA] at hs
    have h2 := List.of_mem_filter hs
    simpa using h2

/-! ### C5: context equals the separator-join of segments in order -/

/-- C5: each variant's context is exactly the join of its non-empty
rendered segments with the fixed separator `"\n\n---\n\n"`; the segment
list is a sublist of the record-order rendered list (retrieval order is
preserved through assembly), and when every record has truthy content
nothing is dropped at all. -/
theorem c5_context_order :
    (∀ rs : List ScoredPoint,
      contextA rs = String.intercalate "\n\n---\n\n" (segmentsA rs) ∧
      List.Sublist (segmentsA rs) (rs.map renderChunk)) ∧
    (∀ rs : List ScoredPoint,
      contextB rs = String.intercalate "\n\n---\n\n" (segmentsB rs) ∧
      List.Sublist (segmentsB rs) (rs.map contentStr)) ∧
    (∀ rs : List ScoredPoint,
      segmentsB (rs.filter (fun pt => !(contentStr pt == ""))) =
      (rs.filter (fun pt => !(contentStr pt == ""))).map contentStr) := by
  refine ⟨fun rs => ⟨rfl, List.filter_sublist _⟩,
    fun rs => ⟨rfl, List.filter_sublist _⟩, ?_⟩
  intro rs
  apply List.filter_eq_self.mpr
  intro s hs
  obtain ⟨pt, hpt, rfl⟩ := List.mem_map.mp hs
  exact (List.mem_filter.mp hpt).2

/-! ### C7: uniform 500 error mapping -/

/-- C7: every post-validation stage failure (embedding, retrieval,
generation) is caught and mapped to the fixed generic 500 body — the
response is the same constant whatever the underlying error text `e` is,
so no text derived from the exception can reach the client — while `e`
appears in the server-side log lines.  Stated for all three stages of
both handler variants. -/
theorem c7_uniform_errors :
    ∀ (uq : String)
      (embedSvc : String → Except String EmbedResp)
      (searchSvc : List Float → Except String (List ScoredPoint))
      (genSvc : String → Except String String) (t : Nat) (e : String),
      (uq == "") = false →
      (getEmbeddingB (embedSvc uq) = .error e →
        handleQueryB (some uq) embedSvc searchSvc genSvc t =
          ({ status := 500, error := some serverErrorMsgB }, [ExtCall.embed],
           ["Embedding Error: " ++ e, "Backend Error Log: " ++ e])) ∧
      (∀ vec, getEmbeddingB (embedSvc uq) = .ok vec → searchSvc vec = .error e →
        handleQueryB (some uq) embedSvc searchSvc genSvc t =
          ({ status := 500, error := some serverErrorMsgB },
           [ExtCall.embed, ExtCall.search], ["Backend Error Log: " ++ e])) ∧
      (∀ vec rs, getEmbeddingB (embedSvc uq) = .ok vec → searchSvc vec = .ok rs →
        genSvc (createStructuredPrompt (contextB rs) uq (extractUrls rs)) = .error e →
        handleQueryB (some uq) embedSvc searchSvc genSvc t =
          ({ status := 500, error := some serverErrorMsgB },
           [ExtCall.embed, ExtCall.search, ExtCall.generate],
           ["Matched " ++ toString rs.length ++ " data chunks.",
            "Backend Error Log: " ++ e])) ∧
      (getEmbeddingA (embedSvc uq) = .error e →
        handleQueryA (some uq) embedSvc searchSvc genSvc =
          ({ status := 500, error := some serverErrorMsgA }, [ExtCall.embed],
           ["Error in /query endpoint: " ++ e])) ∧
      (∀ vec, getEmbeddingA (embedSvc uq) = .ok vec → searchSvc vec = .error e →
        handleQueryA (some uq) embedSvc searchSvc genSvc =
          ({ status := 500, error := some serverErrorMsgA },
           [ExtCall.embed, ExtCall.search], ["Error in /query endpoint: " ++ e])) ∧
      (∀ vec rs, getEmbeddingA (embedSvc uq) = .ok vec → searchSvc vec = .ok rs →
        genSvc (chatInputA (contextA rs) uq) = .error e →
        handleQueryA (some uq) embedSvc searchSvc genSvc =
          ({ status := 500, error := some serverErrorMsgA },
           [ExtCall.embed, ExtCall.search, ExtCall.generate],
           ["Error in /query endpoint: " ++ e])) := by
  intro uq embedSvc searchSvc genSvc t e huq
  have hot : otruthy (some uq) = true := by simp [otruthy, huq]
  refine ⟨?_, ?_, ?_, ?_, ?_, ?_⟩
  · intro h
    simp [handleQueryB, hot, h]
  · intro vec h1 h2
    simp [handleQueryB, hot, h1, h2]
  · intro vec rs h1 h2 h3
    simp [handleQueryB, hot, h1, h2, h3]
  · intro h
    simp [handleQueryA, hot, h]
  · intro vec h1 h2
    simp [handleQueryA, hot, h1, h2]
  · intro vec rs h1 h2 h3
    simp [handleQueryA, hot, h1, h2, h3]

theorem c7_uniform_errors_witness :
    handleQueryB (some "hi") (fun _ => .error "boom") (fun _ => .ok [])
        (fun _ => .ok "a") 3 =
      ({ status := 500, error := some serverErrorMsgB }, [ExtCall.embed],
       ["Embedding Error: " ++ "boom", "Backend Error Log: " ++ "boom"]) :=
  (c7_uniform_errors "hi" (fun _ => .error "boom") (fun _ => .ok [])
      (fun _ => .ok "a") 3 "boom" (by decide)).1 rfl

/-! ### C8: the success payload -/

/-- C8: on a fully successful pipeline run of `part_001`, the response is
200 with `chunksFound` equal to the number of records the retriever
returned, `relevantUrls` equal to the deduplicated extracted URL list,
`answer` the generated text and `responseTime` the measured duration. -/
theorem c8_success_payload :
    ∀ (uq : String)
      (embedSvc : String → Except String EmbedResp)
      (searchSvc : List Float → Except String (List ScoredPoint))
      (genSvc : String → Except String String) (t : Nat)
      (vec : List Float) (rs : List ScoredPoint) (answer : String),
      (uq == "") = false →
      getEmbeddingB (embedSvc uq) = .ok vec →
      searchSvc vec = .ok rs →
      genSvc (createStructuredPrompt (contextB rs) uq (extractUrls rs)) = .ok answer →
      (handleQueryB (some uq) embedSvc searchSvc genSvc t).1 =
        { status := 200, answer := some answer,
          responseTime := some (toString t ++ "ms"),
          relevantUrls := some (extractUrls rs),
          chunksFound := some rs.length } := by
  intro uq embedSvc searchSvc genSvc t vec rs answer huq h1 h2 h3
  have hot : otruthy (some uq) = true := by simp [otruthy, huq]
  simp [handleQueryB, hot, h1, h2, h3]

/-- Three records with content and three distinct URLs (C8 witness,
spec scenario A). -/
def rs3 : List ScoredPoint :=
  [⟨0.9, some ⟨some "GUTech offers BS Computer Science.", some "Programs",
      some "https://gutech.edu.pk/cs", none⟩⟩,
   ⟨0.8, some ⟨some "GUTech offers BBA.", none,
      some "https://gutech.edu.pk/bba", none⟩⟩,
   ⟨0.7, some ⟨some "GUTech offers BS AI.", none,
      some "https://gutech.edu.pk/ai", none⟩⟩]

/-- A well-formed embedding service response (C8 witness). -/
def goodEmbedResp : EmbedResp := some ⟨some ⟨some [0.5, 0.25]⟩⟩

theorem c8_success_payload_witness :
    (handleQueryB (some "What programs does GUTech offer?")
        (fun _ => .ok goodEmbedResp) (fun _ => .ok rs3)
        (fun _ => .ok "GUTech offers CS, BBA and AI programs.") 12).1 =
      { status := 200, answer := some "GUTech offers CS, BBA and AI programs.",
        responseTime := some (toString 12 ++ "ms"),
        relevantUrls := some (extractUrls rs3),
        chunksFound := some rs3.length } ∧
    extractUrls rs3 =
      ["https://gutech.edu.pk/cs", "https://gutech.edu.pk/bba",
       "https://gutech.edu.pk/ai"] ∧
    rs3.length = 3 :=
  ⟨c8_success_payload "What programs does GUTech offer?" (fun _ => .ok goodEmbedResp)
      (fun _ => .ok rs3) (fun _ => .ok "GUTech offers CS, BBA and AI programs.") 12
      [0.5, 0.25] rs3 "GUTech offers CS, BBA and AI programs."
      (by decide) rfl rfl rfl,
   by decide, by decide⟩

/-! ### C9: determinism of assembly, extraction and prompt construction -/

/-- C9: context assembly, URL extraction and prompt construction are pure
functions of the retrieved records and the query — two runs on equal
search results and equal queries produce identical contexts, identical
URL lists and identical prompt strings, in both variants.  (The source
functions mutate no shared state: `extractUrls` builds a fresh `Set` and
the others only build strings, which is why a pure embedding of them is
faithful.) -/
theorem c9_determinism :
    ∀ (rs1 rs2 : List ScoredPoint) (q1 q2 : String), rs1 = rs2 → q1 = q2 →
      contextB rs1 = contextB rs2 ∧
      extractUrls rs1 = extractUrls rs2 ∧
      createStructuredPrompt (contextB rs1) q1 (extractUrls rs1) =
        createStructuredPrompt (contextB rs2) q2 (extractUrls rs2) ∧
      contextA rs1 = contextA rs2 ∧
      chatInputA (contextA rs1) q1 = chatInputA (contextA rs2) q2 := by
  intro rs1 rs2 q1 q2 h1 h2
  subst h1
  subst h2
  exact ⟨rfl, rfl, rfl, rfl, rfl⟩

/-- A record with content and a URL (C9 witness). -/
def rContentUrl : ScoredPoint :=
  ⟨0.6, some ⟨some "GUTech campus info.", none, some "https://gutech.edu.pk", none⟩⟩

theorem c9_determinism_witness :
    contextB [rContentUrl] = contextB [rContentUrl] ∧
    extractUrls [rContentUrl] = extractUrls [rContentUrl] ∧
    createStructuredPrompt (contextB [rContentUrl]) "q" (extractUrls [rContentUrl]) =
      createStructuredPrompt (contextB [rContentUrl]) "q" (extractUrls [rContentUrl]) ∧
    contextA [rContentUrl] = contextA [rContentUrl] ∧
    chatInputA (contextA [rContentUrl]) "q" = chatInputA (contextA [rContentUrl]) "q" :=
  c9_determinism [rContentUrl] [rContentUrl] "q" "q" rfl rfl

/-! ### C10: the Source Links section -/

theorem append_ne_empty_of_left_ne_empty (s t : String) (h : s.length ≠ 0) :
    (s ++ t) ≠ "" := by
  intro heq
  have hlen := congrArg String.length heq
  rw [String.length_append] at hlen
  simp at hlen
  omega

/-- A content-less record that carries a URL (C10). -/
def rUrlOnly : ScoredPoint :=
  ⟨0.3, some ⟨none, none, some "https://gutech.edu.pk/admissions", none⟩⟩

/-- C10: the prompt of `createStructuredPrompt` always ends with the
rendered `urlSection`, which is non-empty exactly when the URL list is
non-empty — independently of the context; in particular a content-less
record carrying a URL produces an empty context (so the fallback text is
interpolated) while its URL is still rendered in the Source Links
section. -/
theorem c10_url_section :
    (∀ (context userQuery : String) (urls : List String),
      createStructuredPrompt context userQuery urls =
        promptHeaderB ++ contextOrFallback context ++ "\n\nUser Query: " ++
          userQuery ++ "\n\n" ++ urlSection urls) ∧
    (∀ urls : List String, urlSection urls = "" ↔ urls = []) ∧
    (contextB [rUrlOnly] = "" ∧
     extractUrls [rUrlOnly] = ["https://gutech.edu.pk/admissions"] ∧
     contextOrFallback (contextB [rUrlOnly]) = fallbackTextB ∧
     (urlSection (extractUrls [rUrlOnly]) == "") = false) := by
  refine ⟨fun _ _ _ => rfl, ?_, by decide, by decide, by decide, by decide⟩
  intro urls
  cases urls with
  | nil => simp [urlSection]
  | cons u us =>
    have hcond : (u :: us).length > 0 := by simp
    rw [urlSection, if_pos hcond, String.append_assoc]
    exact iff_of_false
      (append_ne_empty_of_left_ne_empty _ _ (by decide)) (by simp)
